import Mathlib

/-!
Verification of the expandable signup panel component
(`src/components/new-signup-form.js`).

The component keeps one boolean piece of state (`open`), renders two
overlaid content layers (closed text, open text) whose fades are two
`useTransition`s chained with `useChain`, and drives the container height
with a `useSpring` targeting the measured height of the active layer.
We embed the component's own logic directly from the source; the
react-spring collaborator primitives (chained sequencing, clamped spring
settling) are modelled from the spec's contract for them.
-/

/-- The two content variants rendered by the component: the closed-state
text layer and the open-state text layer. -/
inductive Variant
  | closedV
  | openV
deriving DecidableEq, Repr

/-- `let state = open ? "open" : "closed"` (line 30). -/
def stateStr (op : Bool) : String := if op then "open" else "closed"

/-- Timing configuration shared by every animation in the component. -/
structure SpringConfig where
  tension : Nat
  clamp : Bool
deriving DecidableEq, Repr

/-- `const SPRING_CONFIG = { tension: 275, clamp: true }` (line 25). -/
def SPRING_CONFIG : SpringConfig := { tension := 275, clamp := true }

/-- Props passed to each `useTransition` call (lines 33-52): both calls
pass identical props, differing only in the ref they attach. -/
structure TransitionProps where
  config : SpringConfig
  initialOpacity : ℚ
  fromOpacity : ℚ
  enterOpacity : ℚ
  leaveOpacity : ℚ
  unique : Bool
deriving DecidableEq, Repr

/-- The props of `openSpringTransitions` (lines 33-41). -/
def openSpringTransitionProps : TransitionProps :=
  { config := SPRING_CONFIG
    initialOpacity := 1
    fromOpacity := 0
    enterOpacity := 1
    leaveOpacity := 0
    unique := true }

/-- The props of `closedSpringTransitions` (lines 44-52). -/
def closedSpringTransitionProps : TransitionProps :=
  { config := SPRING_CONFIG
    initialOpacity := 1
    fromOpacity := 0
    enterOpacity := 1
    leaveOpacity := 0
    unique := true }

/-- The argument of `useChain` (lines 54-56): the list of spring refs,
identified by the transition they control, in the order the chain runs
them.  `open ? [closedSpringRef, openSpringRef] : [openSpringRef,
closedSpringRef]`. -/
def chainOrder (op : Bool) : List Variant :=
  if op then [Variant.closedV, Variant.openV] else [Variant.openV, Variant.closedV]

/-- When the panel toggles to state `op`, the outgoing variant is the
layer of the previous state `!op`. -/
def outgoing (op : Bool) : Variant := if op then Variant.closedV else Variant.openV

/-- When the panel toggles to state `op`, the incoming variant is the
layer of the new state `op`. -/
def incoming (op : Bool) : Variant := if op then Variant.openV else Variant.closedV

/-- Modelled from the spec: the spring library reports completion of a
clamped fade after one transition duration; we take that duration as the
unit of time. -/
def D : ℚ := 1

/-- Modelled from the spec: `useChain` runs the listed animations
sequentially, the second starting only when the first reports
completion.  So the animation controlled by the first ref in
`chainOrder` starts at time 0 and every later one is gated behind it. -/
def startTime (op : Bool) (v : Variant) : ℚ :=
  if (chainOrder op).head? = some v then 0 else D

/-- The time at which variant `v`'s fade reports completion. -/
def endTime (op : Bool) (v : Variant) : ℚ := startTime op v + D

/-- Clamp a value into the opacity range `[0, 1]`. -/
def clamp01 (x : ℚ) : ℚ := min 1 (max 0 x)

/-- Modelled from the spec: opacity of variant `v` at time `t` after a
toggle to state `op`, per the transition props of the source: the
incoming layer fades `from {opacity: 0}` to `enter {opacity: 1}` and the
outgoing layer fades from 1 to `leave {opacity: 0}`, each fade clamped
(no overshoot) and occupying one duration `D` starting at its chained
start time. -/
def opacity (op : Bool) (v : Variant) (t : ℚ) : ℚ :=
  if v = incoming op then clamp01 ((t - startTime op v) / D)
  else clamp01 (1 - (t - startTime op v) / D)

/-- Modelled from the spec: with `unique: true` the outgoing item is
removed from the transition once its leave fade completes, while the
incoming item is mounted from the moment of the toggle. -/
def mounted (op : Bool) (v : Variant) (t : ℚ) : Bool :=
  if v = incoming op then true else decide (t < endTime op v)

/-- Heights measured by `useMeasure` for a content layer. -/
structure Bounds where
  height : ℚ
deriving DecidableEq, Repr

/-- `let finalHeight = open ? openBounds.height : closedBounds.height`
(line 60). -/
def finalHeight (op : Bool) (openBounds closedBounds : Bounds) : ℚ :=
  if op then openBounds.height else closedBounds.height

/-- Props of a `useSpring` call. -/
structure SpringProps where
  toHeight : ℚ
  config : SpringConfig
deriving DecidableEq, Repr

/-- `useSpring({ to: { height: finalHeight }, config: SPRING_CONFIG })`
(lines 61-64). -/
def containerSpring (op : Bool) (openBounds closedBounds : Bounds) : SpringProps :=
  { toHeight := finalHeight op openBounds closedBounds
    config := SPRING_CONFIG }

/-- Modelled from the spec: a clamped spring settles exactly at its
target value, so the rest value of a spring is its target. -/
def springRest (target : ℚ) : ℚ := target

/-- `useState(false)` (line 28): the panel mounts closed. -/
def initialOpen : Bool := false

/-- The click handler `() => set(!open)` (line 94). -/
def toggle (op : Bool) : Bool := !op

/-- The button label `open ? "Close" : "Open"` (line 94). -/
def buttonLabel (op : Bool) : String := if op then "Close" else "Open"

/-- The only event the component handles: a click on the toggle button. -/
inductive PanelEvent
  | buttonClick
deriving DecidableEq, Repr

/-- The state transition performed by an event: the click handler is the
only place the open flag is written. -/
def step (op : Bool) : PanelEvent → Bool
  | PanelEvent.buttonClick => toggle op

/-- Run the component over a sequence of events. -/
def run (op : Bool) : List PanelEvent → Bool
  | [] => op
  | e :: es => run (step op e) es

/-- C1: for every toggle, when transitioning CLOSED→OPEN the closed
content's fade is chained first and its completion time equals the start
time of the open content's fade; when transitioning OPEN→CLOSED the
order is reversed (open fades out first, then closed fades in). -/
theorem chain_gates_fades :
    outgoing true = Variant.closedV ∧ incoming true = Variant.openV ∧
      chainOrder true = [Variant.closedV, Variant.openV] ∧
      endTime true Variant.closedV = startTime true Variant.openV ∧
      outgoing false = Variant.openV ∧ incoming false = Variant.closedV ∧
      chainOrder false = [Variant.openV, Variant.closedV] ∧
      endTime false Variant.openV = startTime false Variant.closedV := by
  refine ⟨rfl, rfl, rfl, ?_, rfl, rfl, rfl, ?_⟩ <;>
    simp [endTime, startTime, chainOrder, D]

/-- C2 counterexample: when expanding (toggle to OPEN), the chain is the
pair (outgoing, incoming) — the outgoing animation still comes first —
not the reversed pair (incoming, outgoing) the claim asserts. -/
theorem chain_not_reversed_when_expanding :
    chainOrder true = [outgoing true, incoming true] ∧
      chainOrder true ≠ [incoming true, outgoing true] ∧
      startTime true (outgoing true) = 0 ∧
      startTime true (incoming true) = D := by
  refine ⟨rfl, by decide, rfl, rfl⟩

/-- C2 amended: in both directions the chain is the ordered pair
(outgoing variant, incoming variant), so the outgoing animation's
completion gates the incoming animation's start when collapsing AND when
expanding; what reverses when expanding is only the layer order of the
refs (closed before open instead of open before closed). -/
theorem chain_always_outgoing_first (op : Bool) :
    chainOrder op = [outgoing op, incoming op] ∧
      endTime op (outgoing op) = startTime op (incoming op) := by
  cases op <;>
    exact ⟨rfl, by simp [endTime, startTime, chainOrder, outgoing, incoming, D]⟩

/-- C4: the container height spring targets the measured height of the
currently selected layer — the open layer's bounds when OPEN, the closed
layer's bounds when CLOSED — and a clamped spring at rest sits exactly
at that target. -/
theorem container_spring_targets_active_layer (ob cb : Bounds) :
    (containerSpring true ob cb).toHeight = ob.height ∧
      (containerSpring false ob cb).toHeight = cb.height ∧
      springRest (containerSpring true ob cb).toHeight = ob.height ∧
      springRest (containerSpring false ob cb).toHeight = cb.height := by
  exact ⟨rfl, rfl, rfl, rfl⟩

/-- C5: toggle flips the state with no other input: for every state `s`,
`toggle s ≠ s` and `toggle (toggle s) = s`, so a rapid double-click ends
in the starting state. -/
theorem toggle_involutive_and_flips :
    ∀ s : Bool, toggle s ≠ s ∧ toggle (toggle s) = s := by
  decide

/-- C6: the panel mounts CLOSED (`useState(false)`), one toggle makes it
OPEN, and the rest height of the container spring then equals the open
layer's measured height. -/
theorem initial_closed_toggle_opens (ob cb : Bounds) :
    initialOpen = false ∧ toggle initialOpen = true ∧
      stateStr (toggle initialOpen) = "open" ∧
      springRest (containerSpring (toggle initialOpen) ob cb).toHeight = ob.height := by
  exact ⟨rfl, rfl, rfl, rfl⟩

/-- C7: the button label reflects the current state: "Close" when OPEN
and "Open" when CLOSED. -/
theorem button_label_reflects_state :
    buttonLabel true = "Close" ∧ buttonLabel false = "Open" :=
  ⟨rfl, rfl⟩

/-- C8: both transition sequences and the container height spring share
the single timing configuration SPRING_CONFIG, a tension-based spring
(tension 275) with clamping enabled, and the clamped fades never
overshoot past full opacity. -/
theorem shared_clamped_spring_config :
    openSpringTransitionProps.config = SPRING_CONFIG ∧
      closedSpringTransitionProps.config = SPRING_CONFIG ∧
      (∀ (op : Bool) (ob cb : Bounds),
        (containerSpring op ob cb).config = SPRING_CONFIG) ∧
      SPRING_CONFIG.tension = 275 ∧ SPRING_CONFIG.clamp = true ∧
      (∀ (op : Bool) (v : Variant) (t : ℚ),
        0 ≤ opacity op v t ∧ opacity op v t ≤ 1) := by
  refine ⟨rfl, rfl, fun _ _ _ => rfl, rfl, rfl, fun op v t => ?_⟩
  unfold opacity clamp01
  split <;> constructor <;>
    simp [le_max_iff, min_le_iff, le_min_iff, le_refl, zero_le_one]

/-- C9: the open/closed flag is mutated only by the button's click
handler: the component's only event is the click, every event steps the
state by `toggle`, no events leave the state unchanged, and the state
after any event sequence is fully determined by the parity of the number
of clicks. -/
theorem state_mutated_only_by_toggle :
    (∀ (s : Bool) (e : PanelEvent), step s e = toggle s) ∧
      (∀ s : Bool, run s [] = s) ∧
      (∀ (s : Bool) (es : List PanelEvent),
        run s es = if es.length % 2 = 0 then s else !s) := by
  refine ⟨fun s e => by cases e; rfl, fun s => rfl, fun s es => ?_⟩
  induction es generalizing s with
  | nil => rfl
  | cons e es ih =>
    cases e
    rw [run, ih]
    rcases Nat.mod_two_eq_zero_or_one es.length with h | h <;>
      simp [step, toggle, List.length_cons, Nat.add_mod, h]

/-- A clamped fade value reaches full opacity exactly when its unclamped
value has reached 1. -/
theorem clamp01_eq_one_iff (x : ℚ) : clamp01 x = 1 ↔ 1 ≤ x := by
  unfold clamp01
  rw [min_eq_left_iff, le_max_iff]
  constructor
  · rintro (h | h)
    · exact absurd h (by norm_num)
    · exact h
  · exact fun h => Or.inr h

/-- The outgoing variant heads the chain, so its fade starts at time 0. -/
theorem startTime_outgoing (op : Bool) : startTime op (outgoing op) = 0 := by
  cases op <;> rfl

/-- The incoming variant is second in the chain, so its fade starts only
at time D, when the outgoing fade reports completion. -/
theorem startTime_incoming (op : Bool) : startTime op (incoming op) = D := by
  cases op <;> rfl

/-- The outgoing layer's opacity at time `t` is the clamped fade-out. -/
theorem opacity_outgoing (op : Bool) (t : ℚ) :
    opacity op (outgoing op) t = clamp01 (1 - t) := by
  cases op <;> simp [opacity, outgoing, incoming, startTime, chainOrder, D]

/-- The incoming layer's opacity at time `t` is the clamped fade-in,
delayed by one duration. -/
theorem opacity_incoming (op : Bool) (t : ℚ) :
    opacity op (incoming op) t = clamp01 (t - D) := by
  cases op <;> simp [opacity, incoming, startTime, chainOrder, D]

/-- The incoming layer is mounted from the moment of the toggle. -/
theorem mounted_incoming (op : Bool) (t : ℚ) : mounted op (incoming op) t = true := by
  cases op <;> rfl

/-- The outgoing layer stays mounted exactly until its leave fade
completes at time D. -/
theorem mounted_outgoing (op : Bool) (t : ℚ) :
    mounted op (outgoing op) t = decide (t < D) := by
  cases op <;> simp [mounted, outgoing, incoming, endTime, startTime, chainOrder, D]

/-- C3: at steady state (idle at least the full transition duration 2*D
after the toggle) exactly one of the two layers is mounted and it is
fully opaque; and at every moment of the transition the two layers are
never both at full opacity. -/
theorem steady_state_one_layer (op : Bool) (t : ℚ) :
    (2 * D ≤ t →
      mounted op (incoming op) t = true ∧ opacity op (incoming op) t = 1 ∧
        mounted op (outgoing op) t = false) ∧
      incoming op ≠ outgoing op ∧
      ¬(opacity op (outgoing op) t = 1 ∧ opacity op (incoming op) t = 1) := by
  refine ⟨fun h => ⟨mounted_incoming op t, ?_, ?_⟩, ?_, fun hc => ?_⟩
  · rw [opacity_incoming, clamp01_eq_one_iff]
    norm_num [D] at h ⊢
    linarith
  · rw [mounted_outgoing, decide_eq_false_iff_not, not_lt]
    norm_num [D] at h ⊢
    linarith
  · cases op <;> decide
  · obtain ⟨hout, hin⟩ := hc
    rw [opacity_outgoing, clamp01_eq_one_iff] at hout
    rw [opacity_incoming, clamp01_eq_one_iff] at hin
    norm_num [D] at hin
    linarith

/-- C3 witness: at time 3 (past the full transition) after opening, the
open layer is mounted at full opacity and the closed layer is gone. -/
theorem steady_state_one_layer_witness :
    mounted true (incoming true) 3 = true ∧ opacity true (incoming true) 3 = 1 ∧
      mounted true (outgoing true) 3 = false :=
  (steady_state_one_layer true 3).1 (by norm_num [D])

/-- The mutable ref cell of `usePrevious` together with the dependency
array `[value]` the effect was last run with. -/
structure PrevRef (α : Type) where
  current : Option α
  lastDeps : Option α
deriving DecidableEq, Repr

/-- One render of `usePrevious(value)` (lines 19-23): the hook returns
`ref.current` as it stands, then after the render commits the effect
runs — only if the dependency `value` changed since the last run — and
stores `value` into the ref. -/
def usePreviousRender {α : Type} [DecidableEq α] (r : PrevRef α) (value : α) :
    Option α × PrevRef α :=
  (r.current,
    if r.lastDeps = some value then r
    else { current := some value, lastDeps := some value })

/-- The outputs of `usePrevious` over a sequence of renders, starting
from ref state `r`. -/
def usePreviousList {α : Type} [DecidableEq α] (r : PrevRef α) : List α → List (Option α)
  | [] => []
  | v :: vs =>
    (usePreviousRender r v).1 :: usePreviousList (usePreviousRender r v).2 vs

/-- The outputs of `usePrevious` over a sequence of renders from mount:
`React.useRef()` starts the ref at `undefined` and no effect has run. -/
def usePreviousRun {α : Type} [DecidableEq α] (vs : List α) : List (Option α) :=
  usePreviousList { current := none, lastDeps := none } vs

/-- From any ref state whose stored value and last-run deps agree — as
they do from mount on — the hook behaves as a one-render delay line. -/
theorem usePreviousList_delay {α : Type} [DecidableEq α] (vs : List α) :
    ∀ c : Option α,
      usePreviousList (PrevRef.mk c c) vs = (c :: vs.map some).take vs.length := by
  induction vs with
  | nil => intro c; rfl
  | cons v vs ih =>
    intro c
    by_cases h : c = some v <;>
      simp [usePreviousList, usePreviousRender, h, ih,
        List.length_cons, List.take_succ_cons]

/-- C10: `usePrevious` returns `undefined` (none) on the first render
and on every later render the value it was given on the immediately
preceding render: its output sequence is `none` followed by the input
sequence delayed by one render. -/
theorem usePrevious_returns_previous {α : Type} [DecidableEq α] (vs : List α) :
    usePreviousRun vs = (none :: vs.map some).take vs.length ∧
      (vs ≠ [] → (usePreviousRun vs).head? = some none) ∧
      ∀ (i : ℕ) (hi : i + 1 < vs.length),
        (usePreviousRun vs).get? (i + 1) =
          some (some (vs.get ⟨i, Nat.lt_of_succ_lt hi⟩)) := by
  have main : usePreviousRun vs = (none :: vs.map some).take vs.length :=
    usePreviousList_delay vs none
  refine ⟨main, fun hne => ?_, fun i hi => ?_⟩
  · rw [main]
    cases vs with
    | nil => exact absurd rfl hne
    | cons v vs => rfl
  · rw [main, List.get?_take hi, List.get?_cons_succ, List.get?_map,
      List.get?_eq_get (Nat.lt_of_succ_lt hi)]
    rfl

/-- C10 witness: over the concrete render sequence 10, 20, 30 the hook
returns none, then 10, then 20. -/
theorem usePrevious_returns_previous_witness :
    usePreviousRun ([10, 20, 30] : List ℕ) = [none, some 10, some 20] ∧
      (usePreviousRun ([10, 20, 30] : List ℕ)).head? = some none ∧
      (usePreviousRun ([10, 20, 30] : List ℕ)).get? 2 = some (some 20) :=
  ⟨by decide,
   (usePrevious_returns_previous ([10, 20, 30] : List ℕ)).2.1 (by decide),
   by
     have h := (usePrevious_returns_previous ([10, 20, 30] : List ℕ)).2.2 1 (by decide)
     simpa using h⟩
